import Mathlib

/-!
Shallow embedding of `meetup_event_scraper` (src/meetup_scraper.py and
src/utils/helpers.py) and proofs about its collection loop.

Modelling conventions:
- A DOM element handle is a finite tree `Elem` of attributes, text and
  selector-keyed children; `find_element` returning `none` stands for
  selenium raising `NoSuchElementException`, and `get_attribute`
  returning `none` stands for selenium returning `None` for an absent
  attribute (no exception).
- Strings are manipulated through structurally recursive helpers over
  `List Char` that mirror the exact Python expressions
  (`date.split('[')[0]`, `.replace('Z', '+00:00')`,
  `group_text.replace('by ', '', 1).strip()`,
  `int(''.join(filter(str.isdigit, text)))`).
- `datetime.fromisoformat(...).isoformat()` is a library call, not code
  of this repository; it is abstracted as an oracle
  `parseIso : String → Option String` (`none` = `ValueError`).
- The browser environment of one run is a function `Nat → RoundInput`
  giving, for each scroll round, either a raised exception (`fail`) or
  the page height together with the snapshot of `[data-event-id]`
  elements.  The loop of `scrape_events` is embedded with explicit fuel;
  the `Status` field records which `break`/`return` site ended the loop,
  named after the spec's terminal-state labels (`STOPPED_*`).
-/

/-- A DOM element handle: attributes, visible text, and children keyed by
the CSS selector the scraper uses to find them. -/
inductive Elem where
  | node : List (String × String) → String → List (String × Elem) → Elem

def Elem.attrs : Elem → List (String × String)
  | .node a _ _ => a

def Elem.text : Elem → String
  | .node _ t _ => t

def Elem.children : Elem → List (String × Elem)
  | .node _ _ c => c

/-- `element.get_attribute(name)`: `none` models selenium returning `None`. -/
def get_attribute (e : Elem) (name : String) : Option String :=
  e.attrs.lookup name

/-- `element.find_element(By.CSS_SELECTOR, sel)`: `none` models
`NoSuchElementException`; the first child registered under the selector is
returned, as selenium returns the first match. -/
def find_element (e : Elem) (sel : String) : Option Elem :=
  e.children.lookup sel

/-- `date.split('[')[0]`: the part of the string before the first `[`. -/
def takeUntilBracket : List Char → List Char
  | [] => []
  | c :: cs => if c = '[' then [] else c :: takeUntilBracket cs

/-- `.replace('Z', '+00:00')`: every `Z` becomes `+00:00`. -/
def replaceZ : List Char → List Char
  | [] => []
  | c :: cs =>
    if c = 'Z' then '+' :: '0' :: '0' :: ':' :: '0' :: '0' :: replaceZ cs
    else c :: replaceZ cs

/-- The scraper's date normalisation input transform:
`date.split('[')[0].replace('Z', '+00:00')`. -/
def stripDate (raw : String) : String :=
  String.mk (replaceZ (takeUntilBracket raw.data))

/-- The whole date-normalisation attempt: transform, then try
`datetime.fromisoformat` / `.isoformat()` (the oracle `parseIso`); a
`ValueError` (`none`) leaves the transformed string in place. -/
def normalize_date (parseIso : String → Option String) (raw : String) : String :=
  match parseIso (stripDate raw) with
  | some iso => iso
  | none => stripDate raw

/-- `group_text.replace('by ', '', 1)`: delete the first occurrence of
`"by "`. -/
def removeFirstBy : List Char → List Char
  | 'b' :: 'y' :: ' ' :: rest => rest
  | c :: cs => c :: removeFirstBy cs
  | [] => []

/-- Python `str.strip()`. -/
def stripEnds (l : List Char) : List Char :=
  ((l.dropWhile Char.isWhitespace).reverse.dropWhile Char.isWhitespace).reverse

/-- `group_text.replace('by ', '', 1).strip()`. -/
def cleanGroupName (s : String) : String :=
  String.mk (stripEnds (removeFirstBy s.data))

/-- Python `int(s)` on the scraper's digit-joined strings: fails (`none`,
modelling `ValueError`) on the empty string or a non-digit character. -/
def int_of_string (s : String) : Option Nat :=
  if s.data = [] then none
  else if s.data.all Char.isDigit then
    some (s.data.foldl (fun n c => 10 * n + (c.toNat - 48)) 0)
  else none

/-- `int(''.join(filter(str.isdigit, attendees_text)))` with
`ValueError → 0`. -/
def parse_attendees (s : String) : Nat :=
  match int_of_string (String.mk (s.data.filter Char.isDigit)) with
  | some n => n
  | none => 0

/-- Selector for the group-name element. -/
def groupSel : String := "div.flex-shrink.min-w-0.truncate"

/-- Selector for the rating container. -/
def ratingSel : String := "[class*=\"text-ds-neutral500\"]"

/-- Selector for the attendees container. -/
def attendeesSel : String := "[class*=\"text-primary\"][class*=\"text-xs\"]"

/-- Selector for the event image. -/
def imageSel : String := "img[src*=\"meetupstatic.com\"]"

/-- Selector for the title/URL anchor. -/
def linkSel : String := "a[href*=\"/events/\"]"

/-- The group-name block of `extract_event_info`:
`NoSuchElementException → "Group name not available"`. -/
def group_name_of (e : Elem) : String :=
  match find_element e groupSel with
  | none => "Group name not available"
  | some g => cleanGroupName g.text

/-- The rating block: container then inner `span`;
`NoSuchElementException → "No rating"`. -/
def rating_of (e : Elem) : String :=
  match (find_element e ratingSel).bind (fun c => find_element c "span") with
  | none => "No rating"
  | some s => s.text

/-- The attendees block: container then inner `span`, digits parsed;
`NoSuchElementException`/`ValueError → 0`. -/
def attendees_of (e : Elem) : Nat :=
  match (find_element e attendeesSel).bind (fun c => find_element c "span") with
  | none => 0
  | some s => parse_attendees s.text

/-- The image block: `src` must exist, be nonempty and start with `http`,
else the sentinel. -/
def image_url_of (e : Elem) : String :=
  match find_element e imageSel with
  | none => "No image available"
  | some img =>
    match get_attribute img "src" with
    | none => "No image available"
    | some u =>
      if u.data = [] then "No image available"
      else if u.data.take 4 = ['h', 't', 't', 'p'] then u
      else "No image available"

/-- One collected event dictionary, mirroring the dict literal returned by
`extract_event_info`.  `event_id` and `url` are `Option` because
`get_attribute` can yield `None` without an exception. -/
structure Record where
  event_id : Option String
  title : String
  url : Option String
  date : String
  date_display : String
  group_name : String
  rating : String
  attendees : Nat
  image_url : String
deriving DecidableEq, Repr

/-- `extract_event_info`: required lookups (`h3`, the events anchor, the
`time` element, its `datetime` attribute) raise on absence and the outer
`except Exception` turns that into `None`; every optional block degrades
to its default. -/
def extract_event_info (parseIso : String → Option String) (e : Elem) : Option Record :=
  match find_element e "h3", find_element e linkSel, find_element e "time" with
  | some title_element, some link_element, some time_element =>
    match get_attribute time_element "datetime" with
    | some raw =>
      some
        { event_id := get_attribute e "data-event-id"
          title := title_element.text
          url := get_attribute link_element "href"
          date := normalize_date parseIso raw
          date_display := time_element.text
          group_name := group_name_of e
          rating := rating_of e
          attendees := attendees_of e
          image_url := image_url_of e }
    | none => none
  | _, _, _ => none

/-- Outcome of fetching and parsing `robots.txt` in `check_robots_txt`:
either some step raised (`failure`) or the parser answered `can_fetch`
with an optional crawl delay. -/
inductive RobotsFetch where
  | failure : RobotsFetch
  | policy : Bool → Option Nat → RobotsFetch

/-- `check_robots_txt`: returns `can_fetch`, and `False` when anything in
the fetch/parse raised (the `except Exception: return False` branch). -/
def check_robots_txt : RobotsFetch → Bool
  | .failure => false
  | .policy can_fetch _ => can_fetch

/-- What the browser does in one scroll round: `fail` models an exception
raised by `execute_script`/`find_elements`; `ok h elems` gives the page
height at scroll time and the snapshot of `[data-event-id]` elements. -/
inductive RoundInput where
  | fail : RoundInput
  | ok : Nat → List Elem → RoundInput

/-- Which exit site ended the loop of `scrape_events`, labelled after the
spec's terminal states. `running` marks fuel exhaustion (no exit reached
within the supplied fuel). `stoppedHeightUnchanged` is the spec's
structural termination state; it is part of the type so that claims about
it can be stated. -/
inductive Status where
  | running : Status
  | policyDenied : Status
  | stoppedBudget : Status
  | stoppedNoNewContent : Status
  | stoppedHeightUnchanged : Status
  | stoppedError : Status
deriving DecidableEq, Repr

/-- The loop state returned by the embedded scroll loop. -/
structure LoopOut where
  events : List Record
  pids : List (Option String)
  scrolls : Nat
  status : Status
deriving DecidableEq, Repr

/-- The per-round element pass of `scrape_events` (lines 265–277): for each
element, read its `data-event-id`; if unseen, extract; on success append
the record, add the id to `processed_ids`, and set `found_new_events`. -/
def processElems (parseIso : String → Option String) :
    List Elem → List Record → List (Option String) → Bool →
    List Record × List (Option String) × Bool
  | [], events, pids, found => (events, pids, found)
  | e :: rest, events, pids, found =>
    let event_id := get_attribute e "data-event-id"
    if event_id ∈ pids then
      processElems parseIso rest events pids found
    else
      match extract_event_info parseIso e with
      | some info =>
        processElems parseIso rest (events ++ [info]) (pids ++ [event_id]) true
      | none => processElems parseIso rest events pids found

/-- The `while True` loop of `scrape_events`, with explicit fuel.
Arguments after the environment: fuel, `page`, number of rounds entered so
far (indexes the environment), `events`, `processed_ids`. -/
def scrapeLoop (parseIso : String → Option String) (env : Nat → RoundInput)
    (max_pages : Nat) (exhaustive : Bool) :
    Nat → Nat → Nat → List Record → List (Option String) → LoopOut
  | 0, _, scrolls, events, pids => ⟨events, pids, scrolls, .running⟩
  | fuel + 1, page, scrolls, events, pids =>
    if exhaustive = false ∧ max_pages ≤ page then
      ⟨events, pids, scrolls, .stoppedBudget⟩
    else
      match env scrolls with
      | .fail => ⟨events, pids, scrolls + 1, .stoppedError⟩
      | .ok _height elems =>
        match processElems parseIso elems events pids false with
        | (events2, pids2, true) =>
          scrapeLoop parseIso env max_pages exhaustive fuel (page + 1)
            (scrolls + 1) events2 pids2
        | (events2, pids2, false) =>
          ⟨events2, pids2, scrolls + 1, .stoppedNoNewContent⟩

/-- The full result of one `scrape_events` call: the returned list,
whether `driver.get` ran, how many scroll rounds were entered, and the
exit site. -/
structure ScrapeResult where
  events : List Record
  navigated : Bool
  scrolls : Nat
  status : Status
deriving DecidableEq, Repr

/-- `scrape_events(url, max_pages, exhaustive)`: the robots.txt gate runs
first and returns the empty list without any navigation when it denies;
otherwise `driver.get` runs and the scroll loop produces the result. -/
def scrape_events (robots : RobotsFetch) (env : Nat → RoundInput)
    (parseIso : String → Option String) (max_pages : Nat) (exhaustive : Bool)
    (fuel : Nat) : ScrapeResult :=
  if check_robots_txt robots then
    let out := scrapeLoop parseIso env max_pages exhaustive fuel 0 0 [] []
    ⟨out.events, true, out.scrolls, out.status⟩
  else
    ⟨[], false, 0, .policyDenied⟩

/-- Replace the heights an environment reports, leaving everything else
unchanged (used to state that the loop never reads the height). -/
def setHeights (env : Nat → RoundInput) (h : Nat → Nat) : Nat → RoundInput :=
  fun n =>
    match env n with
    | .fail => .fail
    | .ok _ elems => .ok (h n) elems

/-- Distinct short names for round indices (avoids `Nat.toString`, which
does not reduce in the kernel). -/
def natName : Nat → String
  | 0 => "a"
  | 1 => "b"
  | 2 => "c"
  | n + 3 => "z" ++ natName n

/-- A fully extractable element whose identity is distinct per round
index. -/
def freshElem (n : Nat) : Elem :=
  .node [("data-event-id", natName n)] ""
    [("h3", .node [] "T" []),
     (linkSel, .node [("href", "/events/x")] "" []),
     ("time", .node [("datetime", "2025-01-01T00:00:00")] "Jan 1" [])]

/-- A feed that yields one fresh record on every round, with constant
height. -/
def envGrow : Nat → RoundInput :=
  fun n => .ok 100 [freshElem n]

/-- An ISO-parse oracle that always fails (every `fromisoformat` call
raises `ValueError`). -/
def pNone : String → Option String := fun _ => none

/-- `safe_request` from src/utils/helpers.py: `op i` is the outcome of
attempt `i` of the wrapped call (`error` models a raised exception);
`max_retries` is the literal `3` of the source.  The second component is
the list of back-off sleeps performed (`2 ** attempt` after each failed
non-final attempt). -/
def safe_request {α : Type} (op : Nat → Except String α) :
    Except String α × List Nat :=
  match op 0 with
  | .ok a => (.ok a, [])
  | .error _ =>
    match op 1 with
    | .ok a => (.ok a, [1])
    | .error _ =>
      match op 2 with
      | .ok a => (.ok a, [1, 2])
      | .error e => (.error e, [1, 2])

/-- The claim's reading of attendee parsing: the value of the first
(leading) maximal run of digit characters found in the text. -/
def leadingRunValue (s : String) : Nat :=
  ((s.data.dropWhile (fun c => !c.isDigit)).takeWhile Char.isDigit).foldl
    (fun n c => 10 * n + (c.toNat - 48)) 0

/-- Element with no `data-event-id` attribute but all other required
parts present. -/
def elemNoId : Elem :=
  .node [] ""
    [("h3", .node [] "T" []),
     (linkSel, .node [("href", "/events/9")] "" []),
     ("time", .node [("datetime", "2025-02-02T10:00:00")] "Feb 2" [])]

/-- Element with an identity but no `h3` title element. -/
def elemNoTitle : Elem := .node [("data-event-id", "x1")] "" []

/-- Element with identity, title and URL anchor but no `time` element and
no optional children at all. -/
def elemNoTime : Elem :=
  .node [("data-event-id", "e1")] ""
    [("h3", .node [] "T" []), (linkSel, .node [("href", "/events/5")] "" [])]

/-- Element with exactly the required parts and the date element; every
optional lookup fails. -/
def elemOnlyReq : Elem :=
  .node [("data-event-id", "q1")] ""
    [("h3", .node [] "Quarterly" []),
     (linkSel, .node [("href", "/events/7")] "" []),
     ("time", .node [("datetime", "2025-03-03T09:00:00")] "Mar 3" [])]

/-- Element whose `datetime` carries a bracketed timezone annotation and a
literal `Z`. -/
def elemDateBracket : Elem :=
  .node [("data-event-id", "d1")] ""
    [("h3", .node [] "D" []),
     (linkSel, .node [("href", "/events/8")] "" []),
     ("time", .node [("datetime", "2025-01-01T00:00:00Z[UTC]")] "Wed 7 PM" [])]

/-- Element whose attendee text holds two separate digit runs. -/
def elemAtt : Elem :=
  .node [("data-event-id", "a1")] ""
    [("h3", .node [] "A" []),
     (linkSel, .node [("href", "/events/3")] "" []),
     ("time", .node [("datetime", "2025-04-04T09:00:00")] "Apr 4" []),
     (attendeesSel, .node [] "" [("span", .node [] "4 of 6 attending" [])])]

/-- A feed whose first round succeeds with one fresh record and whose
second round's browser interaction raises once. -/
def envOneFail : Nat → RoundInput :=
  fun n => if n = 0 then .ok 100 [freshElem 0] else .fail

/-- A successfully extracted record carries exactly the element's own
`data-event-id` attribute as its identity. -/
theorem extract_eid (p : String → Option String) (e : Elem) (r : Record)
    (h : extract_event_info p e = some r) :
    r.event_id = get_attribute e "data-event-id" := by
  unfold extract_event_info at h
  split at h
  · split at h
    · injection h with h
      subst h
      rfl
    · exact absurd h (by simp)
  · exact absurd h (by simp)

/-- The element pass preserves the ledger invariant (`processed_ids` is
the identity list of `events`, without duplicates) and only appends. -/
theorem processElems_inv (p : String → Option String) (elems : List Elem) :
    ∀ events pids found, pids = events.map Record.event_id →
    (events.map Record.event_id).Nodup →
    (processElems p elems events pids found).2.1 =
      (processElems p elems events pids found).1.map Record.event_id ∧
    ((processElems p elems events pids found).1.map Record.event_id).Nodup ∧
    ∃ d, (processElems p elems events pids found).1 = events ++ d := by
  induction elems with
  | nil =>
    intro events pids found h1 h2
    exact ⟨h1, h2, [], by simp [processElems]⟩
  | cons e rest ih =>
    intro events pids found h1 h2
    show (processElems p (e :: rest) events pids found).2.1 = _ ∧ _
    rw [processElems]
    by_cases hmem : get_attribute e "data-event-id" ∈ pids
    · simp only [hmem, if_pos]
      exact ih events pids found h1 h2
    · simp only [hmem, if_neg, not_false_iff]
      cases hx : extract_event_info p e with
      | none => exact ih events pids found h1 h2
      | some info =>
        have heid : info.event_id = get_attribute e "data-event-id" :=
          extract_eid p e info hx
        have h1' : pids ++ [get_attribute e "data-event-id"] =
            (events ++ [info]).map Record.event_id := by
          simp [h1, heid]
        have h2' : ((events ++ [info]).map Record.event_id).Nodup := by
          simp only [List.map_append, List.map_cons, List.map_nil]
          rw [List.nodup_append]
          refine ⟨h2, List.nodup_singleton _, ?_⟩
          intro a ha hb
          simp only [List.mem_singleton] at hb
          subst hb
          rw [heid, ← h1] at ha
          exact hmem ha
        obtain ⟨hh1, hh2, d, hd⟩ := ih (events ++ [info]) _ true h1' h2'
        exact ⟨hh1, hh2, info :: d, by simpa using hd⟩

/-- An element whose extraction fails contributes nothing: the pass over
`e :: rest` equals the pass over `rest` with unchanged state. -/
theorem processElems_skip (p : String → Option String) (e : Elem)
    (rest : List Elem) (events : List Record) (pids : List (Option String))
    (found : Bool) (h : extract_event_info p e = none) :
    processElems p (e :: rest) events pids found =
      processElems p rest events pids found := by
  rw [processElems]
  by_cases hmem : get_attribute e "data-event-id" ∈ pids
  · simp [hmem]
  · simp [hmem, h]

/-- The scroll loop preserves the ledger invariant and only appends to
`events`, from any starting state. -/
theorem scrapeLoop_inv (p : String → Option String) (env : Nat → RoundInput)
    (mp : Nat) (ex : Bool) :
    ∀ fuel page scrolls events pids, pids = events.map Record.event_id →
    (events.map Record.event_id).Nodup →
    (scrapeLoop p env mp ex fuel page scrolls events pids).pids =
      (scrapeLoop p env mp ex fuel page scrolls events pids).events.map
        Record.event_id ∧
    ((scrapeLoop p env mp ex fuel page scrolls events pids).events.map
      Record.event_id).Nodup ∧
    ∃ d, (scrapeLoop p env mp ex fuel page scrolls events pids).events =
      events ++ d := by
  intro fuel
  induction fuel with
  | zero =>
    intro page scrolls events pids h1 h2
    exact ⟨h1, h2, [], by simp [scrapeLoop]⟩
  | succ fuel ih =>
    intro page scrolls events pids h1 h2
    rw [scrapeLoop]
    split
    · exact ⟨h1, h2, [], by simp⟩
    · cases henv : env scrolls with
      | fail => exact ⟨h1, h2, [], by simp⟩
      | ok height elems =>
        rcases hpe : processElems p elems events pids false with
          ⟨events2, pids2, found2⟩
        dsimp only
        rw [hpe]
        have hinv := processElems_inv p elems events pids false h1 h2
        rw [hpe] at hinv
        dsimp only at hinv
        obtain ⟨g1, g2, d, hd⟩ := hinv
        cases found2 with
        | true =>
          obtain ⟨k1, k2, d', hd'⟩ :=
            ih (page + 1) (scrolls + 1) events2 pids2 g1 g2
          exact ⟨k1, k2, d ++ d', by
            dsimp only
            rw [hd', hd, List.append_assoc]⟩
        | false => exact ⟨g1, g2, d, hd⟩

/-- In non-exhaustive mode the loop enters at most `mp - page` further
rounds and, given enough fuel, always reaches a terminal status. -/
theorem scrapeLoop_bound (p : String → Option String) (env : Nat → RoundInput)
    (mp : Nat) :
    ∀ fuel page scrolls events pids,
    (scrapeLoop p env mp false fuel page scrolls events pids).scrolls ≤
      scrolls + (mp - page) ∧
    (mp - page < fuel →
      (scrapeLoop p env mp false fuel page scrolls events pids).status ≠
        .running) := by
  intro fuel
  induction fuel with
  | zero =>
    intro page scrolls events pids
    exact ⟨by simp [scrapeLoop], by omega⟩
  | succ fuel ih =>
    intro page scrolls events pids
    rw [scrapeLoop]
    split
    · exact ⟨Nat.le_add_right _ _, fun _ => by simp⟩
    · rename_i hcond
      have hpage : page < mp := by
        by_contra hx
        exact hcond ⟨rfl, by omega⟩
      cases henv : env scrolls with
      | fail =>
        refine ⟨?_, fun _ => ?_⟩ <;> dsimp only
        · omega
        · simp
      | ok height elems =>
        rcases hpe : processElems p elems events pids false with
          ⟨events2, pids2, found2⟩
        dsimp only
        rw [hpe]
        cases found2 with
        | true =>
          obtain ⟨b1, b2⟩ := ih (page + 1) (scrolls + 1) events2 pids2
          refine ⟨?_, fun hf => ?_⟩ <;> dsimp only
          · omega
          · exact b2 (by omega)
        | false =>
          refine ⟨?_, fun _ => ?_⟩ <;> dsimp only
          · omega
          · simp

/-- The loop never reads the reported page height: its result is unchanged
under any reassignment of the heights in the environment. -/
theorem scrapeLoop_heights (p : String → Option String) (env : Nat → RoundInput)
    (mp : Nat) (ex : Bool) (ha hb : Nat → Nat) :
    ∀ fuel page scrolls events pids,
    scrapeLoop p (setHeights env ha) mp ex fuel page scrolls events pids =
      scrapeLoop p (setHeights env hb) mp ex fuel page scrolls events pids := by
  intro fuel
  induction fuel with
  | zero => intro page scrolls events pids; rfl
  | succ fuel ih =>
    intro page scrolls events pids
    rw [scrapeLoop, scrapeLoop]
    by_cases hcond : ex = false ∧ mp ≤ page
    · rw [if_pos hcond, if_pos hcond]
    · rw [if_neg hcond, if_neg hcond]
      cases henv : env scrolls with
      | fail => simp [setHeights, henv]
      | ok height elems =>
        simp only [setHeights, henv]
        rcases hpe : processElems p elems events pids false with
          ⟨events2, pids2, found2⟩
        cases found2 with
        | true => exact ih (page + 1) (scrolls + 1) events2 pids2
        | false => rfl

/-- No exit site of the loop is the spec's `STOPPED_HEIGHT_UNCHANGED`
state. -/
theorem scrapeLoop_no_height_stop (p : String → Option String)
    (env : Nat → RoundInput) (mp : Nat) (ex : Bool) :
    ∀ fuel page scrolls events pids,
    (scrapeLoop p env mp ex fuel page scrolls events pids).status ≠
      .stoppedHeightUnchanged := by
  intro fuel
  induction fuel with
  | zero => intro page scrolls events pids; simp [scrapeLoop]
  | succ fuel ih =>
    intro page scrolls events pids
    rw [scrapeLoop]
    split
    · simp
    · cases henv : env scrolls with
      | fail => simp
      | ok height elems =>
        rcases hpe : processElems p elems events pids false with
          ⟨events2, pids2, found2⟩
        dsimp only
        rw [hpe]
        cases found2 with
        | true => exact ih (page + 1) (scrolls + 1) events2 pids2
        | false => simp

/-- A round whose browser interaction raises terminates the loop at once
with `STOPPED_ERROR`, returning the records of earlier rounds unchanged. -/
theorem scrapeLoop_fail_step (p : String → Option String)
    (env : Nat → RoundInput) (mp : Nat) (ex : Bool) (fuel page scrolls : Nat)
    (events : List Record) (pids : List (Option String))
    (hcond : ¬(ex = false ∧ mp ≤ page)) (henv : env scrolls = .fail) :
    scrapeLoop p env mp ex (fuel + 1) page scrolls events pids =
      ⟨events, pids, scrolls + 1, .stoppedError⟩ := by
  rw [scrapeLoop, if_neg hcond, henv]

/-- A list of records with pairwise distinct identities holds at most one
identity-less record. -/
theorem filter_none_le_one (l : List Record)
    (h : (l.map Record.event_id).Nodup) :
    (l.filter (fun r => r.event_id = none)).length ≤ 1 := by
  induction l with
  | nil => simp
  | cons r t ih =>
    simp only [List.map_cons, List.nodup_cons] at h
    obtain ⟨hr, ht⟩ := h
    by_cases hc : r.event_id = none
    · rw [List.filter_cons_of_pos (by simpa using hc)]
      have hnil : t.filter (fun r => decide (r.event_id = none)) = [] := by
        rw [List.filter_eq_nil_iff]
        intro x hx hxn
        simp only [decide_eq_true_eq] at hxn
        exact hr (hc ▸ hxn ▸ List.mem_map_of_mem Record.event_id hx)
      simp [hnil]
    · rw [List.filter_cons_of_neg (by simpa using hc)]
      exact ih ht

/-- C1: if the robots.txt gate denies the URL — including when the policy
fetch itself raises — `scrape_events` returns the empty list and
`driver.get` is never invoked. -/
theorem C1_policy_short_circuit (rf : RobotsFetch) (env : Nat → RoundInput)
    (p : String → Option String) (mp : Nat) (ex : Bool) (fuel : Nat)
    (h : check_robots_txt rf = false) :
    (scrape_events rf env p mp ex fuel).events = [] ∧
    (scrape_events rf env p mp ex fuel).navigated = false := by
  unfold scrape_events
  rw [h]
  exact ⟨rfl, rfl⟩

/-- C1 witness: a failing policy fetch conservatively denies, and the
denied call collects nothing and never navigates. -/
theorem C1_witness :
    check_robots_txt .failure = false ∧
    (scrape_events .failure envGrow pNone 3 false 10).events = [] ∧
    (scrape_events .failure envGrow pNone 3 false 10).navigated = false := by
  refine ⟨rfl, ?_, ?_⟩
  · exact (C1_policy_short_circuit .failure envGrow pNone 3 false 10 rfl).1
  · exact (C1_policy_short_circuit .failure envGrow pNone 3 false 10 rfl).2

/-- C2 counterexample: an element whose identity attribute is absent is
NOT rejected — `get_attribute` returns `None` without raising, extraction
still yields a record, and the element does contribute to the collected
output. -/
theorem C2_counterexample :
    get_attribute elemNoId "data-event-id" = none ∧
    extract_event_info pNone elemNoId ≠ none ∧
    (processElems pNone [elemNoId] [] [] false).1 ≠ [] := by
  decide

/-- C2 (amended): an element lacking the `h3` title element or the events
URL anchor yields an absent extraction and contributes nothing to the
round's output. -/
theorem C2_required_rejection (p : String → Option String) (e : Elem)
    (h : find_element e "h3" = none ∨ find_element e linkSel = none) :
    extract_event_info p e = none ∧
    ∀ (rest : List Elem) (events : List Record) (pids : List (Option String))
      (found : Bool),
      processElems p (e :: rest) events pids found =
        processElems p rest events pids found := by
  have hx : extract_event_info p e = none := by
    unfold extract_event_info
    cases h3 : find_element e "h3" with
    | none => rfl
    | some t =>
      cases hl : find_element e linkSel with
      | none => rfl
      | some l =>
        rcases h with h | h
        · simp [h3] at h
        · simp [hl] at h
  exact ⟨hx, fun rest events pids found =>
    processElems_skip p e rest events pids found hx⟩

/-- C2 witness: a concrete element with an identity but no title element
is rejected and skipped. -/
theorem C2_witness :
    extract_event_info pNone elemNoTitle = none ∧
    processElems pNone [elemNoTitle] [] [] false =
      processElems pNone [] [] [] false := by
  have h := C2_required_rejection pNone elemNoTitle (Or.inl rfl)
  exact ⟨h.1, h.2 [] [] [] false⟩

/-- C3 counterexample: an element whose required identity/title/URL all
resolve but whose optional lookups all fail does NOT yield a defaulted
record — the unguarded `time` lookup raises and the whole extraction is
absent. -/
theorem C3_counterexample :
    get_attribute elemNoTime "data-event-id" = some "e1" ∧
    (find_element elemNoTime "h3").isSome = true ∧
    (find_element elemNoTime linkSel).isSome = true ∧
    extract_event_info pNone elemNoTime = none := by
  decide

/-- C3 (amended): when the required fields and the date element (with its
`datetime` attribute) resolve, failure of every remaining optional lookup
(group name, rating, attendee count, image) still yields a record carrying
each field's documented default, and extraction does not raise. -/
theorem C3_optional_defaulting (p : String → Option String) (e t l tm : Elem)
    (raw : String)
    (h3 : find_element e "h3" = some t)
    (hl : find_element e linkSel = some l)
    (htm : find_element e "time" = some tm)
    (hdt : get_attribute tm "datetime" = some raw)
    (hg : find_element e groupSel = none)
    (hr : (find_element e ratingSel).bind (fun c => find_element c "span") = none)
    (hat : (find_element e attendeesSel).bind (fun c => find_element c "span") = none)
    (him : find_element e imageSel = none) :
    extract_event_info p e =
      some
        { event_id := get_attribute e "data-event-id", title := t.text
          url := get_attribute l "href", date := normalize_date p raw
          date_display := tm.text, group_name := "Group name not available"
          rating := "No rating", attendees := 0
          image_url := "No image available" } := by
  unfold extract_event_info
  rw [h3, hl, htm]
  dsimp only
  rw [hdt]
  dsimp only
  unfold group_name_of rating_of attendees_of image_url_of
  rw [hg, hr, hat, him]

/-- C3 witness: a concrete element with only the required parts yields the
fully defaulted record. -/
theorem C3_witness :
    extract_event_info pNone elemOnlyReq =
      some
        { event_id := some "q1", title := "Quarterly", url := some "/events/7"
          date := normalize_date pNone "2025-03-03T09:00:00"
          date_display := "Mar 3", group_name := "Group name not available"
          rating := "No rating", attendees := 0
          image_url := "No image available" } := by
  exact C3_optional_defaulting pNone elemOnlyReq _ _ _ "2025-03-03T09:00:00"
    rfl rfl rfl rfl rfl rfl rfl rfl

/-- C4 counterexample: a feed with constant height that yields a fresh
record every round. The claim predicts termination in
`STOPPED_HEIGHT_UNCHANGED` once the height repeats; the code instead keeps
scrolling until the budget and never enters that state. -/
theorem C4_counterexample :
    (scrape_events (.policy true none) (setHeights envGrow (fun _ => 100))
      pNone 3 false 10).status = .stoppedBudget ∧
    (scrape_events (.policy true none) (setHeights envGrow (fun _ => 100))
      pNone 3 false 10).scrolls = 3 ∧
    Status.stoppedBudget ≠ Status.stoppedHeightUnchanged := by
  decide

/-- C4 (amended): the loop never observes the scroll height — the result
of `scrape_events` is unchanged under any reassignment of the reported
heights — and no run ever terminates in `STOPPED_HEIGHT_UNCHANGED`;
termination is decided by the no-new-records, budget and error conditions
alone. -/
theorem C4_no_height_observation (rf : RobotsFetch) (env : Nat → RoundInput)
    (p : String → Option String) (ha hb : Nat → Nat) (mp : Nat) (ex : Bool)
    (fuel : Nat) :
    scrape_events rf (setHeights env ha) p mp ex fuel =
      scrape_events rf (setHeights env hb) p mp ex fuel ∧
    (scrape_events rf env p mp ex fuel).status ≠ .stoppedHeightUnchanged := by
  constructor
  · unfold scrape_events
    rw [scrapeLoop_heights p env mp ex ha hb fuel 0 0 [] []]
  · unfold scrape_events
    split
    · exact scrapeLoop_no_height_stop p env mp ex fuel 0 0 [] []
    · simp

/-- C5 counterexample: the scroll loop is not retried — after one
successful round, a single browser failure in the next round puts the loop
in `STOPPED_ERROR` at once (one failed attempt, not three), with the
previously collected record intact. -/
theorem C5_counterexample :
    (scrape_events (.policy true none) envOneFail pNone 5 false 10).status =
      .stoppedError ∧
    (scrape_events (.policy true none) envOneFail pNone 5 false 10).scrolls = 2 ∧
    (scrape_events (.policy true none) envOneFail pNone 5 false 10).events =
      [{ event_id := some "a", title := "T", url := some "/events/x"
         date := "2025-01-01T00:00:00", date_display := "Jan 1"
         group_name := "Group name not available", rating := "No rating"
         attendees := 0, image_url := "No image available" }] := by
  decide

/-- C5 (amended): the repository's `safe_request` wrapper does retry a
wrapped operation up to 3 attempts with exponentially growing delay
(sleeps 1 then 2) and surfaces the final error only after all three fail;
but `scrape_events` never wraps its scroll/snapshot calls in it, so a
single round failure reaches `STOPPED_ERROR` — with every record of
earlier rounds still returned unchanged. -/
theorem C5_retry_and_single_failure :
    (∀ (op : Nat → Except String Nat) (e0 e1 e2 : String),
      op 0 = .error e0 → op 1 = .error e1 → op 2 = .error e2 →
      safe_request op = (.error e2, [1, 2])) ∧
    (∀ (op : Nat → Except String Nat) (e0 : String) (a : Nat),
      op 0 = .error e0 → op 1 = .ok a → safe_request op = (.ok a, [1])) ∧
    (∀ (p : String → Option String) (env : Nat → RoundInput) (mp : Nat)
       (ex : Bool) (fuel page scrolls : Nat) (events : List Record)
       (pids : List (Option String)),
      ¬(ex = false ∧ mp ≤ page) → env scrolls = .fail →
      scrapeLoop p env mp ex (fuel + 1) page scrolls events pids =
        ⟨events, pids, scrolls + 1, .stoppedError⟩) := by
  refine ⟨?_, ?_, ?_⟩
  · intro op e0 e1 e2 h0 h1 h2
    unfold safe_request
    rw [h0, h1, h2]
  · intro op e0 a h0 h1
    unfold safe_request
    rw [h0, h1]
  · intro p env mp ex fuel page scrolls events pids hc he
    exact scrapeLoop_fail_step p env mp ex fuel page scrolls events pids hc he

/-- C5 witness: the wrapper exhausts three failing attempts with back-off
1 then 2; a once-failing operation succeeds on the second attempt; and a
concrete failing round stops the loop with `STOPPED_ERROR`. -/
theorem C5_witness :
    safe_request (fun _ => (.error "boom" : Except String Nat)) =
      (.error "boom", [1, 2]) ∧
    safe_request (fun i => if i = 0 then (.error "t" : Except String Nat)
      else .ok 7) = (.ok 7, [1]) ∧
    scrapeLoop pNone (fun _ => .fail) 5 false (3 + 1) 0 0 [] [] =
      ⟨[], [], 1, .stoppedError⟩ := by
  refine ⟨?_, ?_, ?_⟩
  · exact C5_retry_and_single_failure.1 (fun _ => .error "boom")
      "boom" "boom" "boom" rfl rfl rfl
  · exact C5_retry_and_single_failure.2.1 _ "t" 7 rfl rfl
  · exact C5_retry_and_single_failure.2.2 pNone (fun _ => .fail) 5 false 3 0 0
      [] [] (by simp) rfl

/-- C6: throughout every run, `processed_ids` is exactly the identity
list of `events` and no identity repeats; and from any invariant-holding
state the collected list only ever grows by appending (discovery order is
preserved). -/
theorem C6_session_invariants (p : String → Option String)
    (env : Nat → RoundInput) (mp : Nat) (ex : Bool) (fuel : Nat) :
    ((scrapeLoop p env mp ex fuel 0 0 [] []).pids =
      (scrapeLoop p env mp ex fuel 0 0 [] []).events.map Record.event_id) ∧
    ((scrapeLoop p env mp ex fuel 0 0 [] []).events.map Record.event_id).Nodup ∧
    (∀ (page scrolls : Nat) (events : List Record)
       (pids : List (Option String)),
      pids = events.map Record.event_id →
      (events.map Record.event_id).Nodup →
      (scrapeLoop p env mp ex fuel page scrolls events pids).pids =
        (scrapeLoop p env mp ex fuel page scrolls events pids).events.map
          Record.event_id ∧
      ((scrapeLoop p env mp ex fuel page scrolls events pids).events.map
        Record.event_id).Nodup ∧
      ∃ d, (scrapeLoop p env mp ex fuel page scrolls events pids).events =
        events ++ d) := by
  obtain ⟨a, b, -⟩ := scrapeLoop_inv p env mp ex fuel 0 0 [] [] rfl (by simp)
  exact ⟨a, b, fun page scrolls events pids h1 h2 =>
    scrapeLoop_inv p env mp ex fuel page scrolls events pids h1 h2⟩

/-- C6 witness: the invariant holds on a concrete run and a concrete
mid-state only grows. -/
theorem C6_witness :
    ((scrapeLoop pNone envGrow 2 false 10 0 0 [] []).pids =
      (scrapeLoop pNone envGrow 2 false 10 0 0 [] []).events.map
        Record.event_id) ∧
    ∃ d, (scrapeLoop pNone envGrow 2 false 10 1 1 [] []).events = [] ++ d := by
  refine ⟨(C6_session_invariants pNone envGrow 2 false 10).1, ?_⟩
  exact ((C6_session_invariants pNone envGrow 2 false 10).2.2 1 1 [] []
    rfl (by simp)).2.2

/-- `parse_attendees` computes the value of the concatenation of all digit
characters of the text, and 0 when there are none. -/
theorem parse_attendees_eq_foldl (s : String) :
    parse_attendees s =
      (s.data.filter Char.isDigit).foldl (fun n c => 10 * n + (c.toNat - 48))
        0 := by
  unfold parse_attendees int_of_string
  by_cases hnil : s.data.filter Char.isDigit = []
  · simp [hnil]
  · have hall : (s.data.filter Char.isDigit).all Char.isDigit = true := by
      rw [List.all_eq_true]
      intro c hc
      exact (List.mem_filter.mp hc).2
    simp [hnil, hall]

/-- C7 counterexample: on a `datetime` whose normalisation fails to parse
(the oracle always raises `ValueError`), the record's date field holds the
bracket-stripped, `Z`-replaced transform — not the original attribute text
and not an absent value — while the display date is the element's own
text. -/
theorem C7_counterexample :
    extract_event_info pNone elemDateBracket =
      some
        { event_id := some "d1", title := "D", url := some "/events/8"
          date := "2025-01-01T00:00:00+00:00", date_display := "Wed 7 PM"
          group_name := "Group name not available", rating := "No rating"
          attendees := 0, image_url := "No image available" } ∧
    ("2025-01-01T00:00:00+00:00" : String) ≠ "2025-01-01T00:00:00Z[UTC]" := by
  decide

/-- C7 (amended): date extraction strips a bracketed suffix and replaces
every literal `Z` by `+00:00`; when parsing the transformed string fails,
the record is still produced (`ValueError` is caught, nothing reaches the
caller), its date field retains the transformed string, and the display
date is the `time` element's own text. -/
theorem C7_date_failure_retains_transformed (p : String → Option String)
    (e t l tm : Elem) (raw : String)
    (h3 : find_element e "h3" = some t)
    (hl : find_element e linkSel = some l)
    (htm : find_element e "time" = some tm)
    (hdt : get_attribute tm "datetime" = some raw)
    (hfail : p (stripDate raw) = none) :
    ∃ r, extract_event_info p e = some r ∧ r.date = stripDate raw ∧
      r.date_display = tm.text := by
  have hx : extract_event_info p e =
      some
        { event_id := get_attribute e "data-event-id", title := t.text
          url := get_attribute l "href", date := normalize_date p raw
          date_display := tm.text, group_name := group_name_of e
          rating := rating_of e, attendees := attendees_of e
          image_url := image_url_of e } := by
    unfold extract_event_info
    rw [h3, hl, htm]
    dsimp only
    rw [hdt]
  refine ⟨_, hx, ?_, rfl⟩
  show normalize_date p raw = stripDate raw
  unfold normalize_date
  rw [hfail]

/-- C7 witness: the bracketed, `Z`-suffixed datetime with a failing parse
oracle yields a record whose date is the transform and whose display date
is the element text. -/
theorem C7_witness :
    ∃ r, extract_event_info pNone elemDateBracket = some r ∧
      r.date = stripDate "2025-01-01T00:00:00Z[UTC]" ∧
      r.date_display = "Wed 7 PM" := by
  exact C7_date_failure_retains_transformed pNone elemDateBracket _ _ _
    "2025-01-01T00:00:00Z[UTC]" rfl rfl rfl rfl rfl

/-- C8 counterexample: attendee text `"4 of 6 attending"` — the leading
run of digits has value 4, but the code concatenates every digit in the
text and extracts 46. -/
theorem C8_counterexample :
    extract_event_info pNone elemAtt =
      some
        { event_id := some "a1", title := "A", url := some "/events/3"
          date := "2025-04-04T09:00:00", date_display := "Apr 4"
          group_name := "Group name not available", rating := "No rating"
          attendees := 46, image_url := "No image available" } ∧
    leadingRunValue "4 of 6 attending" = 4 ∧ (46 : Nat) ≠ 4 := by
  decide

/-- C8 (amended): the extracted attendee count equals the integer formed
by concatenating ALL digit characters found anywhere in the text, in
order (`"46 attendees"` still yields 46); when the text has no digits the
integer default 0 is used. -/
theorem C8_attendees_concat_digits (p : String → Option String)
    (e t l tm sp : Elem) (raw s : String)
    (h3 : find_element e "h3" = some t)
    (hl : find_element e linkSel = some l)
    (htm : find_element e "time" = some tm)
    (hdt : get_attribute tm "datetime" = some raw)
    (hsp : (find_element e attendeesSel).bind (fun c => find_element c "span") =
      some sp)
    (hs : sp.text = s) :
    ∃ r, extract_event_info p e = some r ∧
      r.attendees = (s.data.filter Char.isDigit).foldl
        (fun n c => 10 * n + (c.toNat - 48)) 0 ∧
      (s.data.filter Char.isDigit = [] → r.attendees = 0) := by
  have hx : extract_event_info p e =
      some
        { event_id := get_attribute e "data-event-id", title := t.text
          url := get_attribute l "href", date := normalize_date p raw
          date_display := tm.text, group_name := group_name_of e
          rating := rating_of e, attendees := attendees_of e
          image_url := image_url_of e } := by
    unfold extract_event_info
    rw [h3, hl, htm]
    dsimp only
    rw [hdt]
  have hval : attendees_of e = (s.data.filter Char.isDigit).foldl
      (fun n c => 10 * n + (c.toNat - 48)) 0 := by
    unfold attendees_of
    rw [hsp]
    dsimp only
    rw [hs]
    exact parse_attendees_eq_foldl s
  refine ⟨_, hx, hval, fun hnil => ?_⟩
  show attendees_of e = 0
  rw [hval, hnil]
  rfl

/-- C8 witness: `"4 of 6 attending"` concatenates to 46. -/
theorem C8_witness :
    ∃ r, extract_event_info pNone elemAtt = some r ∧
      r.attendees = ("4 of 6 attending".data.filter Char.isDigit).foldl
        (fun n c => 10 * n + (c.toNat - 48)) 0 ∧
      ("4 of 6 attending".data.filter Char.isDigit = [] → r.attendees = 0) := by
  exact C8_attendees_concat_digits pNone elemAtt _ _ _ _ "2025-04-04T09:00:00"
    "4 of 6 attending" rfl rfl rfl rfl rfl rfl

/-- C9: with a budget of 2 and a feed that yields new records on every
round, the non-exhaustive loop enters exactly 2 rounds and stops in
`STOPPED_BUDGET`; in general, for every finite budget the non-exhaustive
loop enters at most that many rounds and, given enough fuel, always
reaches a terminal status. -/
theorem C9_budget_respected :
    ((scrape_events (.policy true none) envGrow pNone 2 false 10).scrolls = 2 ∧
     (scrape_events (.policy true none) envGrow pNone 2 false 10).status =
       .stoppedBudget) ∧
    (∀ (rf : RobotsFetch) (env : Nat → RoundInput)
       (p : String → Option String) (mp fuel : Nat),
      (scrape_events rf env p mp false fuel).scrolls ≤ mp ∧
      (mp < fuel →
        (scrape_events rf env p mp false fuel).status ≠ .running)) := by
  constructor
  · exact ⟨by decide, by decide⟩
  · intro rf env p mp fuel
    unfold scrape_events
    split
    · obtain ⟨b1, b2⟩ := scrapeLoop_bound p env mp fuel 0 0 [] []
      constructor
      · dsimp only
        omega
      · intro hf
        dsimp only
        exact b2 (by omega)
    · constructor
      · dsimp only
        omega
      · intro _
        simp

/-- C9 witness: the general bound instantiated on the concrete growing
feed with budget 2 and fuel 10. -/
theorem C9_witness :
    (scrape_events (.policy true none) envGrow pNone 2 false 10).scrolls ≤ 2 ∧
    (scrape_events (.policy true none) envGrow pNone 2 false 10).status ≠
      .running := by
  refine ⟨(C9_budget_respected.2 (.policy true none) envGrow pNone 2 10).1, ?_⟩
  exact (C9_budget_respected.2 (.policy true none) envGrow pNone 2 10).2
    (by omega)

/-- C10: an element with no identity attribute but resolvable title, URL
and date yields a record whose `event_id` is the null value; the loop
appends that record and adds the null identity to `processed_ids` when it
is unseen; and consequently at most one identity-less record is ever
collected per session. -/
theorem C10_null_identity (p : String → Option String) (e t l tm : Elem)
    (raw : String)
    (hid : get_attribute e "data-event-id" = none)
    (h3 : find_element e "h3" = some t)
    (hl : find_element e linkSel = some l)
    (htm : find_element e "time" = some tm)
    (hdt : get_attribute tm "datetime" = some raw) :
    (∃ r, extract_event_info p e = some r ∧ r.event_id = none) ∧
    (∀ (rest : List Elem) (events : List Record)
       (pids : List (Option String)) (found : Bool), none ∉ pids →
      ∃ r, extract_event_info p e = some r ∧
        processElems p (e :: rest) events pids found =
          processElems p rest (events ++ [r]) (pids ++ [none]) true) ∧
    (∀ (rf : RobotsFetch) (env : Nat → RoundInput) (mp : Nat) (ex : Bool)
       (fuel : Nat),
      ((scrape_events rf env p mp ex fuel).events.filter
        (fun r => r.event_id = none)).length ≤ 1) := by
  have hx : extract_event_info p e =
      some
        { event_id := none, title := t.text, url := get_attribute l "href"
          date := normalize_date p raw, date_display := tm.text
          group_name := group_name_of e, rating := rating_of e
          attendees := attendees_of e, image_url := image_url_of e } := by
    unfold extract_event_info
    rw [h3, hl, htm]
    dsimp only
    rw [hdt, hid]
  refine ⟨⟨_, hx, rfl⟩, ?_, ?_⟩
  · intro rest events pids found hnp
    refine ⟨_, hx, ?_⟩
    rw [processElems]
    rw [hid]
    rw [if_neg hnp, hx]
  · intro rf env mp ex fuel
    unfold scrape_events
    split
    · dsimp only
      obtain ⟨-, hnd, -⟩ := scrapeLoop_inv p env mp ex fuel 0 0 [] [] rfl
        (by simp)
      exact filter_none_le_one _ hnd
    · simp

/-- C10 witness: the concrete identity-less element yields a null-identity
record, the loop collects it, and a run over a feed of that single element
holds at most one identity-less record. -/
theorem C10_witness :
    (∃ r, extract_event_info pNone elemNoId = some r ∧ r.event_id = none) ∧
    ((scrape_events (.policy true none) (fun _ => .ok 100 [elemNoId]) pNone 3
      false 10).events.filter (fun r => r.event_id = none)).length ≤ 1 := by
  have h := C10_null_identity pNone elemNoId _ _ _ "2025-02-02T10:00:00"
    rfl rfl rfl rfl rfl
  exact ⟨h.1, h.2.2 (.policy true none) (fun _ => .ok 100 [elemNoId]) 3
    false 10⟩
